import Mathlib

/-!
A shallow embedding of the state reconciliation and synchronization core of
the hass-panel dashboard (src/App.tsx), together with proofs about the
properties its specification states.

JavaScript numbers are modelled as finite rationals plus the non-finite
values NaN and the infinities; attribute bags are association lists of
JavaScript values; React state setters become pure functions on explicit
state records; the async settings flush is modelled as a function from the
panel state and a transport outcome to the issued write and resulting state.
-/

set_option maxRecDepth 10000

/-- A JavaScript number: either a finite value (modelled as a rational) or one
of the non-finite values NaN and the two infinities. -/
inductive JNum where
  | fin (q : ℚ)
  | nan
  | posInf
  | negInf
deriving DecidableEq

def JNum.isFinite : JNum → Bool
  | .fin _ => true
  | _ => false

/-- A JavaScript runtime value as it can appear in an entity attribute bag. -/
inductive JSVal where
  | num (n : JNum)
  | str (s : String)
  | bool (b : Bool)
  | arr (xs : List JSVal)
  | null
  | undefined

/-- SameValueZero comparison as used by Array.prototype.includes, restricted
to the comparisons the source performs (a primitive needle against bag
contents); aggregates are distinct references in the source and compare
unequal here. -/
def JSVal.beq : JSVal → JSVal → Bool
  | .num a, .num b => a == b
  | .str a, .str b => a == b
  | .bool a, .bool b => a == b
  | .null, .null => true
  | .undefined, .undefined => true
  | _, _ => false

instance : BEq JSVal := ⟨JSVal.beq⟩

def JSVal.isString : JSVal → Bool
  | .str _ => true
  | _ => false

def isJsWhitespace (c : Char) : Bool :=
  c = ' ' || c = '\t' || c = '\n' || c = '\r' || c = '\x0b' || c = '\x0c'

def trimChars (cs : List Char) : List Char :=
  ((cs.dropWhile isJsWhitespace).reverse.dropWhile isJsWhitespace).reverse

/-- String.prototype.trim. -/
def jsTrim (s : String) : String := ⟨trimChars s.data⟩

def digitsToNat (cs : List Char) : Nat :=
  cs.foldl (fun a c => 10 * a + (c.toNat - 48)) 0

/-- An unsigned decimal literal: digits with an optional decimal point. -/
def parseUnsignedDec (cs : List Char) : Option ℚ :=
  match cs.span (fun c => c ≠ '.') with
  | (intPart, []) =>
    if !intPart.isEmpty && intPart.all Char.isDigit then
      some (digitsToNat intPart : ℚ)
    else none
  | (intPart, _dot :: fracPart) =>
    if (!intPart.isEmpty || !fracPart.isEmpty) && intPart.all Char.isDigit
        && fracPart.all Char.isDigit then
      some ((digitsToNat intPart : ℚ) + (digitsToNat fracPart : ℚ) / (10 : ℚ) ^ fracPart.length)
    else none

/-- The JS Number conversion of a string, restricted to the decimal literal
fragment actually exercised here: an optionally signed decimal numeral (or
Infinity) after trimming; the empty and whitespace-only strings convert to 0,
and any string outside this fragment converts to NaN (the embedded callers
only distinguish finite results from non-finite ones). -/
def jsNumberOfString (s : String) : JNum :=
  let cs := trimChars s.data
  if cs.isEmpty then .fin 0
  else
    match cs with
    | '-' :: rest =>
      if rest = "Infinity".data then .negInf
      else match parseUnsignedDec rest with
        | some q => .fin (-q)
        | none => .nan
    | '+' :: rest =>
      if rest = "Infinity".data then .posInf
      else match parseUnsignedDec rest with
        | some q => .fin q
        | none => .nan
    | _ =>
      if cs = "Infinity".data then .posInf
      else match parseUnsignedDec cs with
        | some q => .fin q
        | none => .nan

/-- toNumber from App.tsx: a finite number is returned as is; a string whose
trim is non-empty is converted and returned when the conversion is finite;
everything else yields the fallback. -/
def toNumber (value : JSVal) (fallback : JNum) : JNum :=
  match value with
  | .num (.fin q) => .fin q
  | .str s =>
    if (jsTrim s).length > 0 then
      match jsNumberOfString s with
      | .fin q => .fin q
      | _ => fallback
    else fallback
  | _ => fallback

/-- The finite numeric reading of a value: the cases in which toNumber does
not fall back, with the value it returns there. -/
def numericValue : JSVal → Option ℚ
  | .num (.fin q) => some q
  | .str s =>
    if (jsTrim s).length > 0 then
      match jsNumberOfString s with
      | .fin q => some q
      | _ => none
    else none
  | _ => none

def toHexChar (n : Nat) : Char :=
  if n < 10 then Char.ofNat (48 + n) else Char.ofNat (87 + n)

/-- Number.prototype.toString(16) for a non-negative integer. -/
def natToHex (n : Nat) : List Char := Nat.toDigits 16 n

/-- The hexadecimal digits of a fractional part in [0, 1), truncated to the
given number of digits; the source never renders a fractional component in
the paths any claim exercises, so this truncated expansion stands in for the
shortest-round-trip digits JS would print. -/
def fracHexDigits : ℚ → Nat → List Char
  | _, 0 => []
  | q, k + 1 =>
    let q16 := q * 16
    let d := (Rat.floor q16).toNat
    if q16 - (Rat.floor q16 : ℚ) = 0 then [toHexChar d]
    else toHexChar d :: fracHexDigits (q16 - (Rat.floor q16 : ℚ)) k

/-- Number.prototype.toString(16) for a non-negative finite number. -/
def ratToHex (q : ℚ) : List Char :=
  let n := (Rat.floor q).toNat
  let frac := q - (Rat.floor q : ℚ)
  if frac = 0 then natToHex n
  else natToHex n ++ '.' :: fracHexDigits frac 13

/-- String.prototype.padStart(2, the zero character). -/
def padStart2 (s : String) : String :=
  if s.length < 2 then ⟨List.replicate (2 - s.length) '0' ++ s.data⟩ else s

/-- The toHex helper inside rgbToHex: clamp toNumber(value, 255) to [0, 255]
and render in base 16 padded to two digits.  The non-finite branch is
unreachable because the fallback 255 is finite, but it mirrors what JS would
print there. -/
def rgbComponentHex (value : JSVal) : String :=
  match toNumber value (.fin 255) with
  | .fin q => padStart2 ⟨ratToHex (max 0 (min 255 q))⟩
  | _ => "NaN"

/-- rgbToHex from App.tsx. -/
def rgbToHex (rgb : JSVal) : String :=
  match rgb with
  | .arr (r :: g :: b :: _) =>
    "#" ++ rgbComponentHex r ++ rgbComponentHex g ++ rgbComponentHex b
  | _ => "#ffffff"

/-- Whether a value is an array of length at least 3, the well-formedness
check rgbToHex performs before destructuring. -/
def isRgbTriple : JSVal → Bool
  | .arr xs => 3 ≤ xs.length
  | _ => false

/-- A device snapshot: identifier, state string and attribute bag. -/
structure HaEntity where
  entity_id : String
  state : String
  attributes : List (String × JSVal)

/-- Reading a property of the attribute bag; a missing key reads as
undefined. -/
def attr (e : HaEntity) (k : String) : JSVal :=
  match e.attributes.lookup k with
  | some v => v
  | none => .undefined

def supportedModesOf (e : HaEntity) : List JSVal :=
  match attr e "supported_color_modes" with
  | .arr xs => xs
  | _ => []

def colorModeOf (e : HaEntity) : String :=
  match attr e "color_mode" with
  | .str s => s
  | _ => ""

structure LightCapabilities where
  supportsColor : Bool
  supportsColorTemp : Bool
deriving DecidableEq

/-- getLightCapabilities from App.tsx. -/
def getLightCapabilities (e : HaEntity) : LightCapabilities :=
  let supported := supportedModesOf e
  let colorMode := colorModeOf e
  { supportsColor :=
      supported.contains (.str "rgb") || supported.contains (.str "hs") ||
      supported.contains (.str "rgbw") || supported.contains (.str "rgbww") ||
      supported.contains (.str "xy") ||
      colorMode == "rgb" || colorMode == "hs" || colorMode == "xy"
    supportsColorTemp :=
      supported.contains (.str "color_temp") || supported.contains (.str "kelvin") ||
      colorMode == "color_temp" || colorMode == "kelvin" }

structure LightControlState where
  brightness : JNum
  color : String
  colorTemp : JNum
deriving DecidableEq

structure ClimateControlState where
  temperature : JNum
  hvacMode : String
deriving DecidableEq

/-- The initial light control values derived inside the bootstrap effect. -/
def seedLightControl (e : HaEntity) : LightControlState :=
  { brightness := toNumber (attr e "brightness") (.fin 180)
    color := rgbToHex (attr e "rgb_color")
    colorTemp := toNumber (attr e "color_temp") (.fin 300) }

/-- The initial climate control values derived inside the bootstrap effect. -/
def seedClimateControl (e : HaEntity) : ClimateControlState :=
  { temperature :=
      toNumber (attr e "temperature") (toNumber (attr e "current_temperature") (.fin 22))
    hvacMode :=
      match attr e "hvac_mode" with
      | .str s => s
      | _ => "auto" }

/-- A JS object keyed by entity identifier, as a partial map. -/
def ControlMap (α : Type) := String → Option α

def mapSet {α : Type} (m : ControlMap α) (k : String) (v : α) : ControlMap α :=
  fun x => if x = k then some v else m x

/-- One step of the bootstrap walk: seed a control record for the device
when its identifier has none yet, and leave a present entry alone. -/
def bootstrapStep {α : Type} (seed : HaEntity → α) (next : ControlMap α)
    (e : HaEntity) : ControlMap α :=
  match next e.entity_id with
  | some _ => next
  | none => mapSet next e.entity_id (seed e)

/-- The light half of the control-state bootstrap effect: walk the light
entities of the snapshot and seed a control record for each identifier that
has none yet, leaving present entries alone. -/
def bootstrapLightControls (entities : List HaEntity)
    (prev : ControlMap LightControlState) : ControlMap LightControlState :=
  (entities.filter (fun e => e.entity_id.startsWith "light.")).foldl
    (bootstrapStep seedLightControl) prev

/-- The climate half of the control-state bootstrap effect. -/
def bootstrapClimateControls (entities : List HaEntity)
    (prev : ControlMap ClimateControlState) : ControlMap ClimateControlState :=
  (entities.filter (fun e => e.entity_id.startsWith "climate.")).foldl
    (bootstrapStep seedClimateControl) prev

/-- The entityOrder append effect: an empty snapshot leaves the order alone;
otherwise every snapshot identifier not already known to the order sequence
is pushed onto its end, in snapshot order (the known set is built from the
previous order once, before the walk). -/
def appendEntityOrder (entities : List HaEntity) (prev : List String) : List String :=
  if entities.length = 0 then prev
  else
    entities.foldl
      (fun next e =>
        if e.entity_id ∈ prev then next else next ++ [e.entity_id])
      prev

/-- The order-index map built from the order sequence: new Map over the
(identifier, index) pairs keeps the last index for a duplicated identifier. -/
def orderIndexMap (order : List String) (id : String) : Option Nat :=
  order.enum.foldl
    (fun acc p => if p.2 == id then some p.1 else acc)
    none

/-- Code-point lexicographic comparison of character lists. -/
def charListLt : List Char → List Char → Bool
  | _, [] => false
  | [], _ :: _ => true
  | a :: as, b :: bs =>
    if a.toNat < b.toNat then true
    else if b.toNat < a.toNat then false
    else charListLt as bs

/-- Code-point lexicographic order on strings, the model of the sign of
localeCompare. -/
def strLt (a b : String) : Bool := charListLt a.data b.data

/-- localeCompare modelled as code-point string comparison: negative, zero or
positive according to the order of the identifiers. -/
def strCompareInt (a b : String) : Int :=
  if strLt a b then -1 else if strLt b a then 1 else 0

/-- The sort comparator shared by orderedVisibleEntities and orderedEntities:
ordered identifiers compare by index, unordered ones sort after every ordered
one and compare with each other by identifier. -/
def entityCompare (order : List String) (a b : HaEntity) : Int :=
  match orderIndexMap order a.entity_id, orderIndexMap order b.entity_id with
  | none, none => strCompareInt a.entity_id b.entity_id
  | none, some _ => 1
  | some _, none => -1
  | some ai, some bi => (ai : Int) - (bi : Int)

/-- The non-positive half of the comparator, the order the sorted output is
arranged by. -/
def entityLe (order : List String) (a b : HaEntity) : Prop :=
  entityCompare order a b ≤ 0

instance (order : List String) : DecidableRel (entityLe order) :=
  fun a b => inferInstanceAs (Decidable (entityCompare order a b ≤ 0))

/-- Array.prototype.sort with a consistent comparator returns the input
permuted into comparator order; with the stable sort the language requires
this permutation is unique for distinct keys, and it is modelled with
insertion sort over the comparator-induced order. -/
def sortEntities (order : List String) (xs : List HaEntity) : List HaEntity :=
  List.insertionSort (entityLe order) xs

/-- The visibility filter: an entity is visible unless its identifier is in
the hidden list. -/
def visibleEntities (entities : List HaEntity) (hidden : List String) : List HaEntity :=
  entities.filter (fun e => !hidden.contains e.entity_id)

def orderedVisibleEntities (entities : List HaEntity) (hidden : List String)
    (order : List String) : List HaEntity :=
  sortEntities order (visibleEntities entities hidden)

def orderedEntities (entities : List HaEntity) (order : List String) : List HaEntity :=
  sortEntities order entities

/-- The slice of panel state the settings document and the persistence gate
read: connection fields, overlay state, password hash, the load flag and the
storage error slot. -/
structure PanelState where
  haUrl : String
  token : String
  hiddenEntities : List String
  nameOverrides : List (String × String)
  categoryMap : List (String × String)
  entityOrder : List String
  customCategories : List String
  passwordHash : String
  settingsLoaded : Bool
  storageError : String
deriving DecidableEq

/-- connectionReady from App.tsx: Boolean(token && (envProxy || haUrl)), with
string truthiness being non-emptiness. -/
def connectionReady (envProxy : Bool) (s : PanelState) : Bool :=
  s.token ≠ "" && (envProxy || s.haUrl ≠ "")

/-- The full settings document a flush sends. -/
structure SettingsPayload where
  haUrl : String
  haToken : String
  hiddenEntities : List String
  nameOverrides : List (String × String)
  categoryMap : List (String × String)
  entityOrder : List String
  customCategories : List String
  passwordHash : String
deriving DecidableEq

/-- The optional next argument of persistPanelSettings, spread over the
payload. -/
structure SettingsOverride where
  haUrl : Option String := none
  haToken : Option String := none
  hiddenEntities : Option (List String) := none
  nameOverrides : Option (List (String × String)) := none
  categoryMap : Option (List (String × String)) := none
  entityOrder : Option (List String) := none
  customCategories : Option (List String) := none
  passwordHash : Option String := none

def settingsPayload (s : PanelState) (next : SettingsOverride) : SettingsPayload :=
  { haUrl := next.haUrl.getD s.haUrl
    haToken := next.haToken.getD s.token
    hiddenEntities := next.hiddenEntities.getD s.hiddenEntities
    nameOverrides := next.nameOverrides.getD s.nameOverrides
    categoryMap := next.categoryMap.getD s.categoryMap
    entityOrder := next.entityOrder.getD s.entityOrder
    customCategories := next.customCategories.getD s.customCategories
    passwordHash := next.passwordHash.getD s.passwordHash }

/-- The outcome of the PUT a flush awaits. -/
inductive TransportResult where
  | ok
  | err (msg : String)

/-- persistPanelSettings from App.tsx, run against a transport outcome: when
connectivity is missing or the initial load has not completed it returns at
once, issuing nothing; otherwise it issues the full payload, and the awaited
PUT either resolves or rejects with the transport message (there is no
try/catch in the callback). -/
def persistRun (envProxy : Bool) (s : PanelState) (next : SettingsOverride)
    (t : TransportResult) : Option SettingsPayload × Except String Unit :=
  if !connectionReady envProxy s || !s.settingsLoaded then (none, .ok ())
  else
    (some (settingsPayload s next),
      match t with
      | .ok => .ok ()
      | .err m => .error m)

/-- What one firing of the save debounce timer leaves behind. -/
structure FlushOutcome where
  state : PanelState
  issuedWrite : Option SettingsPayload
  retryScheduled : Bool
deriving DecidableEq

/-- The save debounce callback runs void persistPanelSettings(): the promise
is discarded, the callback contains no state update and no error handler, and
persistPanelSettings itself neither mutates state nor schedules a timer, so
both outcomes of the PUT leave the panel state untouched and schedule no
retry. -/
def debounceFlushFire (envProxy : Bool) (s : PanelState) (t : TransportResult) :
    FlushOutcome :=
  match persistRun envProxy s ({} : SettingsOverride) t with
  | (w, .ok _) => { state := s, issuedWrite := w, retryScheduled := false }
  | (w, .error _) => { state := s, issuedWrite := w, retryScheduled := false }

/-- The customization-document mutations the settings screen can perform,
exactly the setter calls whose state feeds the settings payload. -/
inductive Mutation where
  | setHaUrl (v : String)
  | setToken (v : String)
  | setHiddenEntities (v : List String)
  | setNameOverrides (v : List (String × String))
  | setCategoryMap (v : List (String × String))
  | setEntityOrder (v : List String)
  | setCustomCategories (v : List String)
  | setPasswordHash (v : String)

def applyMutation (m : Mutation) (s : PanelState) : PanelState :=
  match m with
  | .setHaUrl v => { s with haUrl := v }
  | .setToken v => { s with token := v }
  | .setHiddenEntities v => { s with hiddenEntities := v }
  | .setNameOverrides v => { s with nameOverrides := v }
  | .setCategoryMap v => { s with categoryMap := v }
  | .setEntityOrder v => { s with entityOrder := v }
  | .setCustomCategories v => { s with customCategories := v }
  | .setPasswordHash v => { s with passwordHash := v }

def applyMutations (ms : List Mutation) (s : PanelState) : PanelState :=
  ms.foldl (fun st m => applyMutation m st) s

-- SHA-256 over byte lists, words as Nat reduced mod 2^32.

def wrap32 (n : Nat) : Nat := n % 4294967296

def rotr32 (k x : Nat) : Nat := wrap32 ((x >>> k) ||| (x <<< (32 - k)))

def bnot32 (x : Nat) : Nat := x ^^^ 4294967295

def sha256Ch (x y z : Nat) : Nat := (x &&& y) ^^^ (bnot32 x &&& z)

def sha256Maj (x y z : Nat) : Nat := (x &&& y) ^^^ (x &&& z) ^^^ (y &&& z)

def bigSigma0 (x : Nat) : Nat := rotr32 2 x ^^^ rotr32 13 x ^^^ rotr32 22 x

def bigSigma1 (x : Nat) : Nat := rotr32 6 x ^^^ rotr32 11 x ^^^ rotr32 25 x

def smallSigma0 (x : Nat) : Nat := rotr32 7 x ^^^ rotr32 18 x ^^^ (x >>> 3)

def smallSigma1 (x : Nat) : Nat := rotr32 17 x ^^^ rotr32 19 x ^^^ (x >>> 10)

def sha256K : List Nat :=
  [1116352408, 1899447441, 3049323471, 3921009573, 961987163,
   1508970993, 2453635748, 2870763221, 3624381080, 310598401,
   607225278, 1426881987, 1925078388, 2162078206, 2614888103,
   3248222580, 3835390401, 4022224774, 264347078, 604807628,
   770255983, 1249150122, 1555081692, 1996064986, 2554220882,
   2821834349, 2952996808, 3210313671, 3336571891, 3584528711,
   113926993, 338241895, 666307205, 773529912, 1294757372,
   1396182291, 1695183700, 1986661051, 2177026350, 2456956037,
   2730485921, 2820302411, 3259730800, 3345764771, 3516065817,
   3600352804, 4094571909, 275423344, 430227734, 506948616,
   659060556, 883997877, 958139571, 1322822218, 1537002063,
   1747873779, 1955562222, 2024104815, 2227730452, 2361852424,
   2428436474, 2756734187, 3204031479, 3329325298]

def natToBytesBE (k n : Nat) : List Nat :=
  (List.range k).map (fun i => (n >>> (8 * (k - 1 - i))) % 256)

def sha256Pad (msg : List Nat) : List Nat :=
  msg ++ [128] ++ List.replicate ((119 - msg.length % 64) % 64) 0
      ++ natToBytesBE 8 (8 * msg.length)

def bytesToWord (bs : List Nat) : Nat := bs.foldl (fun a b => 256 * a + b) 0

def blockWords (block : List Nat) : List Nat :=
  (List.range 16).map (fun i => bytesToWord ((block.drop (4 * i)).take 4))

def sha256Extend (ws : List Nat) : List Nat :=
  (List.range 48).foldl
    (fun acc _ =>
      let n := acc.length
      let w2 := acc.getD (n - 2) 0
      let w7 := acc.getD (n - 7) 0
      let w15 := acc.getD (n - 15) 0
      let w16 := acc.getD (n - 16) 0
      acc ++ [wrap32 (smallSigma1 w2 + w7 + smallSigma0 w15 + w16)])
    ws

structure Sha256State where
  a : Nat
  b : Nat
  c : Nat
  d : Nat
  e : Nat
  f : Nat
  g : Nat
  h : Nat

def sha256Init : Sha256State :=
  ⟨1779033703, 3144134277, 1013904242, 2773480762,
   1359893119, 2600822924, 528734635, 1541459225⟩

def sha256Round (st : Sha256State) (kw : Nat × Nat) : Sha256State :=
  let t1 := wrap32 (st.h + bigSigma1 st.e + sha256Ch st.e st.f st.g + kw.1 + kw.2)
  let t2 := wrap32 (bigSigma0 st.a + sha256Maj st.a st.b st.c)
  ⟨wrap32 (t1 + t2), st.a, st.b, st.c, wrap32 (st.d + t1), st.e, st.f, st.g⟩

def sha256Block (st : Sha256State) (block : List Nat) : Sha256State :=
  let ws := sha256Extend (blockWords block)
  let r := (sha256K.zip ws).foldl sha256Round st
  ⟨wrap32 (st.a + r.a), wrap32 (st.b + r.b), wrap32 (st.c + r.c), wrap32 (st.d + r.d),
   wrap32 (st.e + r.e), wrap32 (st.f + r.f), wrap32 (st.g + r.g), wrap32 (st.h + r.h)⟩

/-- Split a byte list into 64-byte chunks; the fuel argument (instantiated
with the list length, an upper bound on the chunk count) keeps the recursion
structural. -/
def chunks64 : Nat → List Nat → List (List Nat)
  | 0, _ => []
  | _, [] => []
  | fuel + 1, bs => bs.take 64 :: chunks64 fuel (bs.drop 64)

def sha256 (msg : List Nat) : List Nat :=
  let padded := sha256Pad msg
  let st := (chunks64 padded.length padded).foldl sha256Block sha256Init
  natToBytesBE 4 st.a ++ natToBytesBE 4 st.b ++ natToBytesBE 4 st.c ++ natToBytesBE 4 st.d ++
  natToBytesBE 4 st.e ++ natToBytesBE 4 st.f ++ natToBytesBE 4 st.g ++ natToBytesBE 4 st.h

/-- UTF-8 encoding of one code point, as produced by TextEncoder. -/
def utf8EncodeChar (c : Char) : List Nat :=
  let n := c.toNat
  if n < 128 then [n]
  else if n < 2048 then [192 + n / 64, 128 + n % 64]
  else if n < 65536 then [224 + n / 4096, 128 + (n / 64) % 64, 128 + n % 64]
  else [240 + n / 262144, 128 + (n / 4096) % 64, 128 + (n / 64) % 64, 128 + n % 64]

def utf8Encode (s : String) : List Nat := (s.data.map utf8EncodeChar).flatten

def byteToHex (b : Nat) : String := ⟨[toHexChar (b / 16), toHexChar (b % 16)]⟩

/-- hashValue from App.tsx: SHA-256 of the UTF-8 bytes of the argument,
rendered as lowercase hex with every byte zero-padded to two digits. -/
def hashValue (value : String) : String :=
  String.join ((sha256 (utf8Encode value)).map byteToHex)

/-- The state the settings lock reads and writes. -/
structure LockState where
  passwordHash : String
  settingsUnlocked : Bool
  passwordInput : String
  newPassword : String
  settingsError : String
deriving DecidableEq

def initialLockState : LockState :=
  { passwordHash := "", settingsUnlocked := false, passwordInput := ""
    newPassword := "", settingsError := "" }

/-- handleUnlock from App.tsx.  With no stored hash it acts as set-password:
an empty trimmed new password is a validation error, otherwise the hash of
the trimmed new password is stored and the panel unlocks.  With a stored hash
it acts as attempt: the raw password input is hashed, unlocking on a match
and surfacing the incorrect-password error otherwise. -/
def handleUnlock (s : LockState) : LockState :=
  if s.passwordHash = "" then
    if jsTrim s.newPassword = "" then
      { s with settingsError := "Set a password to protect settings." }
    else
      { s with passwordHash := hashValue (jsTrim s.newPassword)
               settingsUnlocked := true
               settingsError := ""
               passwordInput := ""
               newPassword := "" }
  else
    if hashValue s.passwordInput = s.passwordHash then
      { s with settingsUnlocked := true, settingsError := "" }
    else
      { s with settingsError := "Incorrect password." }

/-- handleLock from App.tsx. -/
def handleLock (s : LockState) : LockState :=
  { s with settingsUnlocked := false, passwordInput := "", settingsError := "" }

/-- updatePassword from App.tsx. -/
def updatePassword (s : LockState) : LockState :=
  if jsTrim s.newPassword = "" then
    { s with settingsError := "Enter a new password." }
  else
    { s with passwordHash := hashValue (jsTrim s.newPassword)
             settingsUnlocked := true
             settingsError := ""
             passwordInput := ""
             newPassword := "" }

/-- Modelled from the spec: the capability rule of section 4.1 as worded,
with one fixed token set used both for the supported-modes containment check
and for the color-mode equality check. -/
def specColorRule (tokens : List String) (e : HaEntity) : Bool :=
  tokens.any (fun t => (supportedModesOf e).contains (.str t))
    || tokens.contains (colorModeOf e)

-- Concrete inputs used by witnesses and counterexamples.

/-- A light advertising only the rgbw supported mode. -/
def lightRgbwSupported : HaEntity :=
  ⟨"light.c1", "on", [("supported_color_modes", .arr [.str "rgbw"])]⟩

/-- A light with no capability attributes at all. -/
def lightBare : HaEntity := ⟨"light.c2", "on", []⟩

/-- A light whose current color mode is rgbw but which advertises no
supported modes. -/
def lightRgbwMode : HaEntity := ⟨"light.c3", "on", [("color_mode", .str "rgbw")]⟩

/-- A light advertising only color-temperature support. -/
def lightColorTempOnly : HaEntity :=
  ⟨"light.t1", "on", [("supported_color_modes", .arr [.str "color_temp"])]⟩

/-- A light advertising only rgb support. -/
def lightRgbOnly : HaEntity :=
  ⟨"light.t2", "on", [("supported_color_modes", .arr [.str "rgb"])]⟩

/-- A light with a malformed brightness attribute and no color attributes. -/
def lightMalformed : HaEntity :=
  ⟨"light.w1", "on", [("brightness", .str "not-a-number")]⟩

/-- A climate device with a measured temperature but no target temperature
and no hvac mode. -/
def climateMeasuredOnly : HaEntity :=
  ⟨"climate.w1", "off", [("current_temperature", .num (.fin 21))]⟩

/-- Two devices whose snapshot order is the reverse of their lexical order. -/
def deviceLexB : HaEntity := ⟨"light.b", "on", []⟩

def deviceLexA : HaEntity := ⟨"light.a", "on", []⟩

/-- A panel state that is connected, has completed its initial load, and has
no storage error. -/
def flushDemoState : PanelState :=
  { haUrl := "http://ha.local", token := "token", hiddenEntities := []
    nameOverrides := [], categoryMap := [], entityOrder := []
    customCategories := [], passwordHash := "", settingsLoaded := true
    storageError := "" }

/-- A panel state that is connected but has not completed its initial load. -/
def notLoadedState : PanelState :=
  { flushDemoState with settingsLoaded := false }

/-- A light control record seeded before the snapshot below is processed. -/
def seededLight : LightControlState :=
  { brightness := .fin 50, color := "#000000", colorTemp := .fin 200 }

def seededClimate : ClimateControlState :=
  { temperature := .fin 19, hvacMode := "heat" }

def seededLightMap : ControlMap LightControlState :=
  fun k => if k = "light.a" then some seededLight else none

def seededClimateMap : ControlMap ClimateControlState :=
  fun k => if k = "climate.a" then some seededClimate else none

/-- A snapshot carrying conflicting attributes for the already-seeded
devices. -/
def conflictingSnapshot : List HaEntity :=
  [⟨"light.a", "on", [("brightness", .num (.fin 10))]⟩,
   ⟨"light.b", "on", []⟩,
   ⟨"climate.a", "heat", [("temperature", .num (.fin 25))]⟩]

/-- The state after set-password with a password carrying a leading space. -/
def lockTraceSet : LockState :=
  handleUnlock { initialLockState with newPassword := " abc" }

/-- The state after locking again and attempting the very same string that
set-password was given. -/
def lockTraceAttempt : LockState :=
  handleUnlock { handleLock lockTraceSet with passwordInput := " abc" }

-- Helper lemmas.

theorem toNumber_elim (v : JSVal) (fb : JNum) :
    toNumber v fb = (numericValue v).elim fb JNum.fin := by
  cases v with
  | num n => cases n <;> rfl
  | str s =>
    by_cases h : 0 < (jsTrim s).length
    · cases hj : jsNumberOfString s <;> simp [toNumber, numericValue, h, hj]
    · simp [toNumber, numericValue, h]
  | bool b => rfl
  | arr xs => rfl
  | null => rfl
  | undefined => rfl

theorem rgbToHex_default (v : JSVal) (h : isRgbTriple v = false) :
    rgbToHex v = "#ffffff" := by
  cases v with
  | arr xs =>
    match xs with
    | [] => rfl
    | [_] => rfl
    | [_, _] => rfl
    | _ :: _ :: _ :: _ => simp [isRgbTriple] at h
  | num n => rfl
  | str s => rfl
  | bool b => rfl
  | null => rfl
  | undefined => rfl

theorem bootstrapFold_preserve {α : Type} (seed : HaEntity → α) (l : List HaEntity)
    (acc : ControlMap α) (id : String) (c : α) (h : acc id = some c) :
    (l.foldl (bootstrapStep seed) acc) id = some c := by
  induction l generalizing acc with
  | nil => exact h
  | cons e l ih =>
    simp only [List.foldl_cons]
    apply ih
    cases he : acc e.entity_id with
    | some v => simpa [bootstrapStep, he] using h
    | none =>
      simp only [bootstrapStep, he, mapSet]
      by_cases hid : id = e.entity_id
      · rw [hid] at h; rw [he] at h; exact absurd h (by simp)
      · simpa [hid] using h

theorem appendOrder_fold (prev : List String) (l : List HaEntity) (acc : List String) :
    l.foldl
      (fun next e => if e.entity_id ∈ prev then next else next ++ [e.entity_id])
      acc
      = acc ++ (l.map (·.entity_id)).filter (fun id => decide (id ∉ prev)) := by
  induction l generalizing acc with
  | nil => simp
  | cons e l ih =>
    by_cases h : e.entity_id ∈ prev
    · simp [h, ih]
    · simp [h, ih, List.append_assoc]

theorem appendEntityOrder_eq (entities : List HaEntity) (prev : List String) :
    appendEntityOrder entities prev
      = prev ++ (entities.map (·.entity_id)).filter (fun id => decide (id ∉ prev)) := by
  unfold appendEntityOrder
  split
  · rename_i h
    have : entities = [] := List.length_eq_zero.mp h
    simp [this]
  · exact appendOrder_fold prev entities prev

theorem applyMutations_settingsLoaded (ms : List Mutation) (s : PanelState) :
    (applyMutations ms s).settingsLoaded = s.settingsLoaded := by
  induction ms generalizing s with
  | nil => rfl
  | cons m ms ih =>
    simp only [applyMutations, List.foldl_cons]
    rw [show (List.foldl (fun st m => applyMutation m st) (applyMutation m s) ms)
        = applyMutations ms (applyMutation m s) from rfl, ih]
    cases m <;> rfl

-- C10.

/-- C10: the numeric coercion helper is total and, for every finite fallback,
never yields a non-finite result: it returns the input when that is a finite
number, the converted value of a string with non-empty trim when that
conversion is finite, and exactly the fallback otherwise. -/
theorem toNumber_total_and_finite (v : JSVal) (fb : JNum) (hfb : fb.isFinite = true) :
    (toNumber v fb).isFinite = true ∧
      ((∃ q, v = .num (.fin q) ∧ toNumber v fb = .fin q) ∨
       (∃ s q, v = .str s ∧ 0 < (jsTrim s).length ∧ jsNumberOfString s = .fin q ∧
          toNumber v fb = .fin q) ∨
       toNumber v fb = fb) := by
  cases v with
  | num n =>
    cases n with
    | fin q => exact ⟨rfl, Or.inl ⟨q, rfl, rfl⟩⟩
    | nan => exact ⟨hfb, Or.inr (Or.inr rfl)⟩
    | posInf => exact ⟨hfb, Or.inr (Or.inr rfl)⟩
    | negInf => exact ⟨hfb, Or.inr (Or.inr rfl)⟩
  | str s =>
    by_cases h : 0 < (jsTrim s).length
    · cases hj : jsNumberOfString s with
      | fin q =>
        refine ⟨?_, Or.inr (Or.inl ⟨s, q, rfl, h, hj, ?_⟩)⟩ <;>
          simp [toNumber, JNum.isFinite, h, hj]
      | nan => refine ⟨?_, Or.inr (Or.inr ?_)⟩ <;> simp [toNumber, h, hj, hfb]
      | posInf => refine ⟨?_, Or.inr (Or.inr ?_)⟩ <;> simp [toNumber, h, hj, hfb]
      | negInf => refine ⟨?_, Or.inr (Or.inr ?_)⟩ <;> simp [toNumber, h, hj, hfb]
    · refine ⟨?_, Or.inr (Or.inr ?_)⟩ <;> simp [toNumber, h, hfb]
  | bool b => exact ⟨hfb, Or.inr (Or.inr rfl)⟩
  | arr xs => exact ⟨hfb, Or.inr (Or.inr rfl)⟩
  | null => exact ⟨hfb, Or.inr (Or.inr rfl)⟩
  | undefined => exact ⟨hfb, Or.inr (Or.inr rfl)⟩

/-- Witness for C10 at the string input 2.5 with fallback 7. -/
theorem toNumber_total_and_finite_witness :
    JNum.isFinite (.fin 7) = true ∧
      (toNumber (.str "2.5") (.fin 7)).isFinite = true := by
  refine ⟨by decide, (toNumber_total_and_finite (.str "2.5") (.fin 7) (by decide)).1⟩

-- C7.

/-- C7: the bootstrap fallback defaults.  A light whose brightness attribute
has no finite numeric reading seeds brightness exactly 180; a missing or
malformed rgb_color seeds the color #ffffff; a missing or malformed
color_temp seeds 300.  A climate device whose target temperature has no
finite numeric reading falls back to the measured current temperature and
then to 22, and a missing or non-string hvac_mode seeds auto. -/
theorem bootstrap_fallback_defaults (e c : HaEntity)
    (hb : numericValue (attr e "brightness") = none)
    (hr : isRgbTriple (attr e "rgb_color") = false)
    (hct : numericValue (attr e "color_temp") = none)
    (ht : numericValue (attr c "temperature") = none)
    (hm : (attr c "hvac_mode").isString = false) :
    (seedLightControl e).brightness = .fin 180 ∧
    (seedLightControl e).color = "#ffffff" ∧
    (seedLightControl e).colorTemp = .fin 300 ∧
    (seedClimateControl c).temperature
        = (numericValue (attr c "current_temperature")).elim (.fin 22) JNum.fin ∧
    (seedClimateControl c).hvacMode = "auto" := by
  refine ⟨?_, ?_, ?_, ?_, ?_⟩
  · simp [seedLightControl, toNumber_elim, hb]
  · simpa [seedLightControl] using rgbToHex_default _ hr
  · simp [seedLightControl, toNumber_elim, hct]
  · simp [seedClimateControl, toNumber_elim, ht]
  · cases hv : attr c "hvac_mode" <;>
      simp_all [seedClimateControl, JSVal.isString]

/-- Witness for C7 at a light whose brightness is the string not-a-number and
a climate device with only a measured temperature of 21. -/
theorem bootstrap_fallback_defaults_witness :
    numericValue (attr lightMalformed "brightness") = none ∧
    (seedLightControl lightMalformed).brightness = .fin 180 ∧
    (seedLightControl lightMalformed).color = "#ffffff" ∧
    (seedClimateControl climateMeasuredOnly).temperature = .fin 21 ∧
    (seedClimateControl climateMeasuredOnly).hvacMode = "auto" := by
  have h := bootstrap_fallback_defaults lightMalformed climateMeasuredOnly
    (by decide) (by decide) (by decide) (by decide) (by decide)
  refine ⟨by decide, h.1, h.2.1, ?_, h.2.2.2.2⟩
  have := h.2.2.2.1
  rw [this]
  decide

-- C3.

/-- C3: order stability under polling.  The order sequence after the append
step is exactly the original sequence followed by the snapshot identifiers
not already present in it, in snapshot order. -/
theorem entity_order_append (entities : List HaEntity) (prev : List String) :
    appendEntityOrder entities prev
      = prev ++ (entities.map (·.entity_id)).filter (fun id => decide (id ∉ prev)) :=
  appendEntityOrder_eq entities prev

-- C9.

/-- C9: the entity order sequence is monotone under polling.  The original
sequence survives as the initial segment of the appended sequence (so no
identifier is removed and no existing position changes), and an empty
snapshot leaves the sequence entirely unchanged. -/
theorem entity_order_monotone (entities : List HaEntity) (prev : List String) :
    (appendEntityOrder entities prev).take prev.length = prev ∧
    (∀ id, id ∈ prev → id ∈ appendEntityOrder entities prev) ∧
    (entities = [] → appendEntityOrder entities prev = prev) := by
  refine ⟨?_, ?_, ?_⟩
  · rw [appendEntityOrder_eq]
    exact List.take_left prev _
  · intro id hid
    rw [appendEntityOrder_eq]
    exact List.mem_append_left _ hid
  · intro h
    simp [h, appendEntityOrder]

/-- Witness for C9: a snapshot of one known and one new device, and the empty
snapshot. -/
theorem entity_order_monotone_witness :
    (appendEntityOrder [deviceLexA, deviceLexB] ["light.a"]).take 1 = ["light.a"] ∧
    "light.a" ∈ appendEntityOrder [deviceLexA, deviceLexB] ["light.a"] ∧
    appendEntityOrder [] ["light.a"] = ["light.a"] := by
  have h := entity_order_monotone [deviceLexA, deviceLexB] ["light.a"]
  have h2 := entity_order_monotone ([] : List HaEntity) ["light.a"]
  exact ⟨h.1, h.2.1 "light.a" (by decide), h2.2.2 rfl⟩

-- C2.

/-- C2: control-state bootstrapping never overwrites an existing entry.  For
every snapshot and every control-state map that already holds an entry for an
identifier, the bootstrap step leaves that entry exactly as it was, for both
the light map and the climate map, regardless of the device attributes in the
snapshot. -/
theorem bootstrap_idempotent (entities : List HaEntity)
    (prevL : ControlMap LightControlState) (prevC : ControlMap ClimateControlState)
    (id : String) (lc : LightControlState) (cc : ClimateControlState) :
    (prevL id = some lc → bootstrapLightControls entities prevL id = some lc) ∧
    (prevC id = some cc → bootstrapClimateControls entities prevC id = some cc) :=
  ⟨fun h => bootstrapFold_preserve seedLightControl
      (entities.filter (fun e => e.entity_id.startsWith "light.")) prevL id lc h,
   fun h => bootstrapFold_preserve seedClimateControl
      (entities.filter (fun e => e.entity_id.startsWith "climate.")) prevC id cc h⟩

/-- Witness for C2: a snapshot with conflicting attributes for the seeded
devices leaves the seeded entries untouched. -/
theorem bootstrap_idempotent_witness :
    seededLightMap "light.a" = some seededLight ∧
    bootstrapLightControls conflictingSnapshot seededLightMap "light.a"
      = some seededLight ∧
    bootstrapClimateControls conflictingSnapshot seededClimateMap "climate.a"
      = some seededClimate := by
  have h := bootstrap_idempotent conflictingSnapshot seededLightMap seededClimateMap
    "light.a" seededLight seededClimate
  have h2 := bootstrap_idempotent conflictingSnapshot seededLightMap seededClimateMap
    "climate.a" seededLight seededClimate
  exact ⟨rfl, h.1 rfl, h2.2 rfl⟩

-- C1.

/-- C1: load-before-flush.  For every sequence of customization mutations, if
the initial load has not succeeded before them (mutations cannot set the
loaded flag) or credentials are absent at flush time, the persist operation
returns without issuing any remote write. -/
theorem no_flush_before_load (envProxy : Bool) (s : PanelState) (ms : List Mutation)
    (next : SettingsOverride) (t : TransportResult)
    (h : s.settingsLoaded = false ∨ connectionReady envProxy (applyMutations ms s) = false) :
    (persistRun envProxy (applyMutations ms s) next t).1 = none := by
  rcases h with h | h
  · have hl : (applyMutations ms s).settingsLoaded = false := by
      rw [applyMutations_settingsLoaded]; exact h
    simp [persistRun, hl]
  · simp [persistRun, h]

/-- Witness for C1: a connected but not-yet-loaded state, mutated twice,
issues no write even on a successful transport. -/
theorem no_flush_before_load_witness :
    notLoadedState.settingsLoaded = false ∧
    (persistRun false
        (applyMutations [.setToken "other", .setHiddenEntities ["light.a"]] notLoadedState)
        ({} : SettingsOverride) .ok).1 = none := by
  refine ⟨by decide, ?_⟩
  exact no_flush_before_load false notLoadedState
    [.setToken "other", .setHiddenEntities ["light.a"]] ({} : SettingsOverride) .ok
    (Or.inl (by decide))

-- C4.

/-- C4 counterexample: at a connected, loaded state with an empty storage
error slot, a flush that fails with the transport message network-down leaves
the storage error slot empty — the failure is not surfaced as a storage error
message (the claim asserts it is), because the callback discards the promise
and persistPanelSettings has no catch handler. -/
theorem flush_failure_not_surfaced :
    (persistRun false flushDemoState ({} : SettingsOverride) (.err "network down")).2
      = .error "network down" ∧
    (debounceFlushFire false flushDemoState (.err "network down")).state.storageError
      = "" := by
  exact ⟨rfl, rfl⟩

/-- C4 as amended: when a debounced flush fails with a transport error the
error is not caught at all (so no storage error message is set and the state
is left exactly as it was — in particular nothing is rolled back), no
automatic retry is scheduled, and the next mutation with the gate conditions
still holding leads to a persist that issues a write again. -/
theorem flush_failure_effects (envProxy : Bool) (s : PanelState) (t : TransportResult)
    (m : Mutation) (next : SettingsOverride)
    (hc : connectionReady envProxy (applyMutation m s) = true)
    (hl : (applyMutation m s).settingsLoaded = true) :
    (debounceFlushFire envProxy s t).state = s ∧
    (debounceFlushFire envProxy s t).retryScheduled = false ∧
    (persistRun envProxy (applyMutation m ((debounceFlushFire envProxy s t).state)) next .ok).1
      = some (settingsPayload (applyMutation m s) next) := by
  have hstate : (debounceFlushFire envProxy s t).state = s := by
    unfold debounceFlushFire
    rcases h : persistRun envProxy s ({} : SettingsOverride) t with ⟨w, r⟩
    cases r <;> simp
  refine ⟨hstate, ?_, ?_⟩
  · unfold debounceFlushFire
    rcases h : persistRun envProxy s ({} : SettingsOverride) t with ⟨w, r⟩
    cases r <;> simp
  · rw [hstate]
    simp [persistRun, hc, hl]

/-- Witness for C4 at the connected and loaded demo state: the failed flush
changes nothing and the very next mutation flushes successfully. -/
theorem flush_failure_effects_witness :
    connectionReady false (applyMutation (.setHiddenEntities ["light.a"]) flushDemoState)
      = true ∧
    (debounceFlushFire false flushDemoState (.err "network down")).state = flushDemoState ∧
    (debounceFlushFire false flushDemoState (.err "network down")).retryScheduled = false ∧
    (persistRun false
        (applyMutation (.setHiddenEntities ["light.a"])
          ((debounceFlushFire false flushDemoState (.err "network down")).state))
        ({} : SettingsOverride) .ok).1
      = some (settingsPayload (applyMutation (.setHiddenEntities ["light.a"]) flushDemoState)
          ({} : SettingsOverride)) := by
  have h := flush_failure_effects false flushDemoState (.err "network down")
    (.setHiddenEntities ["light.a"]) ({} : SettingsOverride) (by decide) (by decide)
  exact ⟨by decide, h.1, h.2.1, h.2.2⟩

-- C5.

theorem jsval_str_beq (a b : String) :
    (JSVal.str a == JSVal.str b) = (a == b) := rfl

theorem contains_str_iff (xs : List JSVal) (s : String) :
    xs.contains (.str s) = true ↔ JSVal.str s ∈ xs := by
  induction xs with
  | nil => simp [List.contains]
  | cons x xs ih =>
    cases x <;>
      simp_all [List.contains, List.elem_cons, JSVal.beq, BEq.beq, beq_iff_eq]

/-- C5 counterexample: no single token set can serve both capability checks.
The code recognizes rgbw in the supported-modes containment check but not in
the color-mode equality check, so a set containing rgbw disagrees with the
code on a device whose color mode is rgbw, and a set without rgbw disagrees
on a device advertising rgbw in its supported modes. -/
theorem capability_single_token_set_impossible :
    ¬ ∃ tokens : List String, ∀ e : HaEntity,
        specColorRule tokens e = (getLightCapabilities e).supportsColor := by
  rintro ⟨tokens, h⟩
  have h1 := h lightRgbwSupported
  have h2 := h lightBare
  have h3 := h lightRgbwMode
  rw [show (getLightCapabilities lightRgbwSupported).supportsColor = true from rfl] at h1
  rw [show (getLightCapabilities lightBare).supportsColor = false from rfl] at h2
  rw [show (getLightCapabilities lightRgbwMode).supportsColor = false from rfl] at h3
  simp only [specColorRule,
    show supportedModesOf lightRgbwSupported = [.str "rgbw"] from rfl,
    show colorModeOf lightRgbwSupported = "" from rfl,
    show supportedModesOf lightBare = [] from rfl,
    show colorModeOf lightBare = "" from rfl,
    show supportedModesOf lightRgbwMode = [] from rfl,
    show colorModeOf lightRgbwMode = "rgbw" from rfl] at h1 h2 h3
  simp only [List.contains, List.elem_cons, List.elem_nil, jsval_str_beq] at h1 h2 h3
  simp at h1 h2 h3
  rcases h1 with ⟨x, hx, hmatch⟩ | hmem
  · cases hbe : x == "rgbw" with
    | false => rw [hbe] at hmatch; exact absurd hmatch (by simp)
    | true =>
      have hxe : x = "rgbw" := by simpa using hbe
      rw [hxe] at hx
      exact h3 hx
  · exact h2 hmem

/-- C5 as amended: supportsColor holds exactly when the advertised
supported-modes set contains one of rgb, hs, rgbw, rgbww, xy or the current
color mode is one of the strictly smaller set rgb, hs, xy (rgbw and rgbww are
recognized only in supported modes); supportsColorTemp holds exactly when the
supported-modes set contains color_temp or kelvin or the color mode equals
one of those two tokens, a set disjoint from the color tokens.  The claim
table holds: supported modes of only color_temp gives (false, true), only rgb
gives (true, false), and no capability attributes give (false, false). -/
theorem capability_inference (e : HaEntity) :
    ((getLightCapabilities e).supportsColor = true ↔
      ((∃ t ∈ ["rgb", "hs", "rgbw", "rgbww", "xy"], JSVal.str t ∈ supportedModesOf e) ∨
        colorModeOf e ∈ (["rgb", "hs", "xy"] : List String))) ∧
    ((getLightCapabilities e).supportsColorTemp = true ↔
      ((∃ t ∈ ["color_temp", "kelvin"], JSVal.str t ∈ supportedModesOf e) ∨
        colorModeOf e ∈ (["color_temp", "kelvin"] : List String))) ∧
    getLightCapabilities lightColorTempOnly = ⟨false, true⟩ ∧
    getLightCapabilities lightRgbOnly = ⟨true, false⟩ ∧
    getLightCapabilities lightBare = ⟨false, false⟩ := by
  refine ⟨?_, ?_, rfl, rfl, rfl⟩
  · simp only [getLightCapabilities, Bool.or_eq_true, contains_str_iff, beq_iff_eq]
    simp only [List.mem_cons, List.not_mem_nil, or_false, exists_eq_or_imp, exists_eq_left]
    tauto
  · simp only [getLightCapabilities, Bool.or_eq_true, contains_str_iff, beq_iff_eq]
    simp only [List.mem_cons, List.not_mem_nil, or_false, exists_eq_or_imp, exists_eq_left]
    tauto

-- C6.

theorem foldl_append_length (l : List String) :
    ∀ acc : String, (l.foldl (· ++ ·) acc).length = acc.length + (l.map String.length).sum := by
  induction l with
  | nil => intro acc; simp
  | cons x l ih =>
    intro acc
    simp [ih, String.length_append]
    omega

theorem sha256_length (msg : List Nat) : (sha256 msg).length = 32 := by
  simp [sha256, natToBytesBE]

theorem hashValue_length (v : String) : (hashValue v).length = 64 := by
  have h1 : ∀ l : List Nat, ((l.map byteToHex).map String.length).sum = 2 * l.length := by
    intro l
    induction l with
    | nil => simp
    | cons b l ih =>
      simp only [List.map_cons, List.sum_cons, List.length_cons, ih]
      have : (byteToHex b).length = 2 := rfl
      omega
  simp only [hashValue, String.join, foldl_append_length, h1, sha256_length]
  rfl

theorem hashValue_ne_empty (v : String) : hashValue v ≠ "" := by
  intro h
  have := hashValue_length v
  rw [h] at this
  simp [String.length] at this

/-- C6 counterexample: set-password with the string space-a-b-c stores the
digest of its trim, but the subsequent attempt with the very same string
digests the raw input, so the claimed round trip fails: the panel stays
locked and surfaces the incorrect-password error instead of unlocking. -/
theorem lock_roundtrip_untrimmed_fails :
    lockTraceSet.settingsUnlocked = true ∧
    lockTraceAttempt.settingsUnlocked = false ∧
    lockTraceAttempt.settingsError = "Incorrect password." := by
  decide

/-- C6 as amended: set-password stores the SHA-256 digest of the trimmed
password as lowercase hex, while attempt digests the raw untrimmed input;
hence the set-then-attempt round trip holds for every password equal to its
own trim (with non-empty trim), and an attempt whose digest differs from the
stored hash leaves the panel locked with the incorrect-password error. -/
theorem lock_digest_roundtrip (p q : String) (s : LockState)
    (hs : s.passwordHash = "") (hp : jsTrim p = p) (hpne : jsTrim p ≠ "")
    (hq : hashValue q ≠ hashValue p) :
    (handleUnlock { s with newPassword := p }).settingsUnlocked = true ∧
    (handleUnlock { s with newPassword := p }).passwordHash = hashValue p ∧
    (handleUnlock { handleLock (handleUnlock { s with newPassword := p }) with
        passwordInput := p }).settingsUnlocked = true ∧
    (handleUnlock { handleLock (handleUnlock { s with newPassword := p }) with
        passwordInput := q }).settingsUnlocked = false ∧
    (handleUnlock { handleLock (handleUnlock { s with newPassword := p }) with
        passwordInput := q }).settingsError = "Incorrect password." := by
  have hpne2 : ¬(p = "") := hp ▸ hpne
  refine ⟨?_, ?_, ?_, ?_, ?_⟩
  · simp [handleUnlock, hs, hp, hpne2]
  · simp [handleUnlock, hs, hp, hpne2]
  · simp [handleUnlock, handleLock, hs, hp, hpne2, hashValue_ne_empty p]
  · simp [handleUnlock, handleLock, hs, hp, hpne2, hashValue_ne_empty p, hq]
  · simp [handleUnlock, handleLock, hs, hp, hpne2, hashValue_ne_empty p, hq]

/-- Witness for C6 at the passwords abc and abd from the initial lock
state. -/
theorem lock_digest_roundtrip_witness :
    jsTrim "abc" = "abc" ∧
    hashValue "abd" ≠ hashValue "abc" ∧
    (handleUnlock { initialLockState with newPassword := "abc" }).settingsUnlocked = true ∧
    (handleUnlock { handleLock (handleUnlock { initialLockState with newPassword := "abc" }) with
        passwordInput := "abc" }).settingsUnlocked = true ∧
    (handleUnlock { handleLock (handleUnlock { initialLockState with newPassword := "abc" }) with
        passwordInput := "abd" }).settingsError = "Incorrect password." := by
  have h := lock_digest_roundtrip "abc" "abd" initialLockState rfl (by decide) (by decide)
    (by decide)
  exact ⟨by decide, by decide, h.1, h.2.2.1, h.2.2.2.2⟩

-- C8.

theorem charListLt_asymm : ∀ as bs : List Char,
    charListLt as bs = true → charListLt bs as = false := by
  intro as
  induction as with
  | nil =>
    intro bs h
    cases bs with
    | nil => exact absurd h (by simp [charListLt])
    | cons b bs => rfl
  | cons a as ih =>
    intro bs h
    cases bs with
    | nil => exact absurd h (by simp [charListLt])
    | cons b bs =>
      simp only [charListLt] at h ⊢
      split_ifs at h ⊢
      all_goals first
        | rfl
        | omega
        | exact ih bs h

theorem charListLt_conn : ∀ as bs : List Char,
    charListLt as bs = false → charListLt bs as = false → as = bs := by
  intro as
  induction as with
  | nil =>
    intro bs h1 h2
    cases bs with
    | nil => rfl
    | cons b bs => exact absurd h1 (by simp [charListLt])
  | cons a as ih =>
    intro bs h1 h2
    cases bs with
    | nil => exact absurd h2 (by simp [charListLt])
    | cons b bs =>
      simp only [charListLt] at h1 h2
      split_ifs at h1 h2
      all_goals first
        | omega
        | simp at h1
        | simp at h2
        | (have hn : a.toNat = b.toNat := by omega
           exact congrArg₂ List.cons (Char.ext (UInt32.ext hn)) (ih bs h1 h2))

theorem charListLt_negtrans : ∀ as bs cs : List Char,
    charListLt bs as = false → charListLt cs bs = false → charListLt cs as = false := by
  intro as
  induction as with
  | nil =>
    intro bs cs h1 h2
    cases cs <;> rfl
  | cons a as ih =>
    intro bs cs h1 h2
    cases cs with
    | nil =>
      cases bs with
      | nil => exact h1
      | cons b bs => exact absurd h2 (by simp [charListLt])
    | cons c cs =>
      cases bs with
      | nil => exact absurd h1 (by simp [charListLt])
      | cons b bs =>
        simp only [charListLt] at h1 h2 ⊢
        split_ifs at h1 h2 ⊢
        all_goals first
          | rfl
          | omega
          | exact ih bs cs h1 h2

theorem strLt_asymm {a b : String} (h : strLt a b = true) : strLt b a = false :=
  charListLt_asymm a.data b.data h

theorem strLt_conn {a b : String} (h1 : strLt a b = false) (h2 : strLt b a = false) :
    a = b := by
  cases a with
  | mk da =>
    cases b with
    | mk db => exact congrArg String.mk (charListLt_conn da db h1 h2)

theorem strLt_negtrans {a b c : String} (h1 : strLt b a = false) (h2 : strLt c b = false) :
    strLt c a = false :=
  charListLt_negtrans a.data b.data c.data h1 h2

theorem entityLe_pp {order : List String} {a b : HaEntity} {ai bi : Nat}
    (ha : orderIndexMap order a.entity_id = some ai)
    (hb : orderIndexMap order b.entity_id = some bi) :
    entityLe order a b ↔ ai ≤ bi := by
  simp only [entityLe, entityCompare, ha, hb]
  omega

theorem entityLe_pa {order : List String} {a b : HaEntity} {ai : Nat}
    (ha : orderIndexMap order a.entity_id = some ai)
    (hb : orderIndexMap order b.entity_id = none) :
    entityLe order a b := by
  simp [entityLe, entityCompare, ha, hb]

theorem entityLe_ap {order : List String} {a b : HaEntity} {bi : Nat}
    (ha : orderIndexMap order a.entity_id = none)
    (hb : orderIndexMap order b.entity_id = some bi) :
    ¬ entityLe order a b := by
  simp [entityLe, entityCompare, ha, hb]

theorem entityLe_aa {order : List String} {a b : HaEntity}
    (ha : orderIndexMap order a.entity_id = none)
    (hb : orderIndexMap order b.entity_id = none) :
    entityLe order a b ↔ strLt b.entity_id a.entity_id = false := by
  simp only [entityLe, entityCompare, ha, hb, strCompareInt]
  split_ifs with h1 h2
  · simp [strLt_asymm h1]
  · simp [h2]
  · simp [h2]

theorem entityLe_trans (order : List String) (a b c : HaEntity)
    (hab : entityLe order a b) (hbc : entityLe order b c) : entityLe order a c := by
  rcases ha : orderIndexMap order a.entity_id with _ | ai <;>
    rcases hb : orderIndexMap order b.entity_id with _ | bi <;>
    rcases hc : orderIndexMap order c.entity_id with _ | ci
  · exact (entityLe_aa ha hc).mpr
      (strLt_negtrans ((entityLe_aa ha hb).mp hab) ((entityLe_aa hb hc).mp hbc))
  · exact absurd hbc (entityLe_ap hb hc)
  · exact absurd hab (entityLe_ap ha hb)
  · exact absurd hab (entityLe_ap ha hb)
  · exact entityLe_pa ha hc
  · exact absurd hbc (entityLe_ap hb hc)
  · exact entityLe_pa ha hc
  · exact (entityLe_pp ha hc).mpr
      (le_trans ((entityLe_pp ha hb).mp hab) ((entityLe_pp hb hc).mp hbc))

theorem entityLe_total (order : List String) (a b : HaEntity) :
    entityLe order a b ∨ entityLe order b a := by
  rcases ha : orderIndexMap order a.entity_id with _ | ai <;>
    rcases hb : orderIndexMap order b.entity_id with _ | bi
  · cases hba : strLt b.entity_id a.entity_id with
    | false => exact Or.inl ((entityLe_aa ha hb).mpr hba)
    | true => exact Or.inr ((entityLe_aa hb ha).mpr (strLt_asymm hba))
  · exact Or.inr (entityLe_pa hb ha)
  · exact Or.inl (entityLe_pa ha hb)
  · rcases Nat.le_total ai bi with h | h
    · exact Or.inl ((entityLe_pp ha hb).mpr h)
    · exact Or.inr ((entityLe_pp hb ha).mpr h)

theorem sortEntities_sorted (order : List String) (xs : List HaEntity) :
    List.Sorted (entityLe order) (sortEntities order xs) := by
  haveI : IsTotal HaEntity (entityLe order) := ⟨entityLe_total order⟩
  haveI : IsTrans HaEntity (entityLe order) := ⟨entityLe_trans order⟩
  exact List.sorted_insertionSort _ xs

theorem sortEntities_perm (order : List String) (xs : List HaEntity) :
    (sortEntities order xs).Perm xs :=
  List.perm_insertionSort _ xs

theorem sorted_output_pairwise (order : List String) (xs : List HaEntity)
    (hnd : (xs.map (·.entity_id)).Nodup) (i j : Nat) (a b : HaEntity) (hij : i < j)
    (hia : (sortEntities order xs)[i]? = some a)
    (hjb : (sortEntities order xs)[j]? = some b) :
    ((orderIndexMap order b.entity_id).isSome = true →
      (orderIndexMap order a.entity_id).isSome = true) ∧
    (orderIndexMap order a.entity_id = none → strLt a.entity_id b.entity_id = true) := by
  obtain ⟨hi, hgi⟩ := List.getElem?_eq_some.mp hia
  obtain ⟨hj, hgj⟩ := List.getElem?_eq_some.mp hjb
  have hle : entityLe order a b := by
    have := List.pairwise_iff_getElem.mp (sortEntities_sorted order xs) i j hi hj hij
    rwa [hgi, hgj] at this
  have hnd2 : ((sortEntities order xs).map (·.entity_id)).Nodup :=
    (((sortEntities_perm order xs).map (·.entity_id)).symm).nodup hnd
  have hne : a.entity_id ≠ b.entity_id := by
    have hpw := List.pairwise_iff_getElem.mp hnd2 i j
      (by simpa using hi) (by simpa using hj) hij
    simpa [hgi, hgj] using hpw
  constructor
  · intro hbp
    rcases ha : orderIndexMap order a.entity_id with _ | ai
    · rcases hb : orderIndexMap order b.entity_id with _ | bi
      · simp [hb] at hbp
      · exact absurd hle (entityLe_ap ha hb)
    · simp
  · intro ha
    rcases hb : orderIndexMap order b.entity_id with _ | bi
    · have hba : strLt b.entity_id a.entity_id = false := (entityLe_aa ha hb).mp hle
      cases hab : strLt a.entity_id b.entity_id with
      | true => rfl
      | false => exact absurd (strLt_conn hab hba) hne
    · exact absurd hle (entityLe_ap ha hb)

/-- C8: ordering tie-break.  In both resolved ordered lists, for snapshots
with distinct identifiers (identity is the identifier in the data model), a
device absent from the order sequence never precedes one present in it, and
two devices absent from the sequence appear in strictly lexical identifier
order regardless of their positions in the snapshot array. -/
theorem ordering_tiebreak (entities : List HaEntity) (hidden order : List String)
    (hnd : (entities.map (·.entity_id)).Nodup) (i j : Nat) (a b : HaEntity)
    (hij : i < j) :
    ((orderedVisibleEntities entities hidden order)[i]? = some a →
      (orderedVisibleEntities entities hidden order)[j]? = some b →
      (((orderIndexMap order b.entity_id).isSome = true →
          (orderIndexMap order a.entity_id).isSome = true) ∧
        (orderIndexMap order a.entity_id = none →
          strLt a.entity_id b.entity_id = true))) ∧
    ((orderedEntities entities order)[i]? = some a →
      (orderedEntities entities order)[j]? = some b →
      (((orderIndexMap order b.entity_id).isSome = true →
          (orderIndexMap order a.entity_id).isSome = true) ∧
        (orderIndexMap order a.entity_id = none →
          strLt a.entity_id b.entity_id = true))) := by
  constructor
  · intro hia hjb
    have hndv : ((visibleEntities entities hidden).map (·.entity_id)).Nodup :=
      ((List.filter_sublist entities).map (·.entity_id)).nodup hnd
    exact sorted_output_pairwise order (visibleEntities entities hidden) hndv i j a b hij hia hjb
  · intro hia hjb
    exact sorted_output_pairwise order entities hnd i j a b hij hia hjb

/-- Witness for C8: two unordered devices listed in anti-lexical snapshot
order come out lexically sorted. -/
theorem ordering_tiebreak_witness :
    (([deviceLexB, deviceLexA].map (·.entity_id)).Nodup) ∧
    (orderedEntities [deviceLexB, deviceLexA] [])[0]? = some deviceLexA ∧
    (orderedEntities [deviceLexB, deviceLexA] [])[1]? = some deviceLexB ∧
    strLt "light.a" "light.b" = true := by
  refine ⟨by decide, rfl, rfl, ?_⟩
  have h := (ordering_tiebreak [deviceLexB, deviceLexA] [] [] (by decide) 0 1
      deviceLexA deviceLexB (by decide)).2 rfl rfl
  exact h.2 rfl
